import Mathlib

/-!
The installer workflow of mpris-openvr-overlay.

A shallow embedding of `install.cpp`: its `main` makes a fixed sequence of calls into the
OpenVR client library, branches on what they answer, prints status and error lines, and
returns an exit code.

The OpenVR runtime, the filesystem and the C++ runtime are outside the program.  They appear
here as a record of responses (`Runtime`) and a record for the host of the process (`Host`),
and `main` is a function from these to everything observable of one run: the calls made, in
order, the lines written to the two output streams, and how the run ended.

* The accessor `vr::VRApplications()` is called up to four times in a run, and only its first
  result is tested.  Its answers are therefore indexed by the number of the call, and a
  method call through an absent handle ends the run as `Outcome.undefined`.
* `std::filesystem::current_path()` can fail, for instance when the working directory has
  been removed.  `std::filesystem::absolute` then throws, nothing in `main` catches the
  exception, and the run ends in `std::terminate` (`Outcome.terminated`).  Paths follow the
  POSIX rules of `std::filesystem`.
* Every output statement of the program writes one text that ends with a newline; a stream
  is the list of these texts.
-/

namespace vr

/-- Values of the OpenVR enumeration `EVRInitError`. -/
abbrev EVRInitError := Int

/-- The value `vr::VRInitError_None`. -/
abbrev VRInitError_None : EVRInitError := 0

/-- Values of the OpenVR enumeration `EVRApplicationError`. -/
abbrev EVRApplicationError := Int

/-- The value `vr::VRApplicationError_None`. -/
abbrev VRApplicationError_None : EVRApplicationError := 0

/-- Application types of `vr::EVRApplicationType` a client can ask `VR_Init` for. -/
inductive EVRApplicationType
  | VRApplication_Other
  | VRApplication_Scene
  | VRApplication_Overlay
  | VRApplication_Background
  | VRApplication_Utility
  deriving DecidableEq, Repr

/-- Responses of the OpenVR runtime, as seen through the client library.  Every entry point
the program uses is a field.  `VRApplications n` tells whether the accessor
`vr::VRApplications()` hands out a non-null interface pointer on its `n`-th call of the run
(counted from 0); the other fields answer a call from its arguments. -/
structure Runtime where
  VR_Init : EVRApplicationType → EVRInitError
  VR_GetVRInitErrorAsEnglishDescription : EVRInitError → String
  VRApplications : Nat → Bool
  IsApplicationInstalled : String → Bool
  AddApplicationManifest : String → EVRApplicationError
  LaunchDashboardOverlay : String → EVRApplicationError

/-- One call into the client library, with its arguments. -/
inductive Call
  | VR_Init (eApplicationType : EVRApplicationType)
  | VR_GetVRInitErrorAsEnglishDescription (error : EVRInitError)
  | VRApplications
  | IsApplicationInstalled (pchAppKey : String)
  | AddApplicationManifest (pchApplicationManifestFullPath : String)
  | LaunchDashboardOverlay (pchAppKey : String)
  | VR_Shutdown
  deriving DecidableEq, Repr

end vr

namespace fs

/-- The member `path::is_absolute` on a POSIX system: the path has a root directory, that is,
it starts with the directory separator. -/
def is_absolute (p : String) : Bool :=
  p.data.head? == some '/'

/-- The member `path::has_filename`: the path is not empty and does not end with a
separator. -/
def has_filename (p : String) : Bool :=
  match p.data.getLast? with
  | some c => c != '/'
  | none => false

/-- The operator `/` of `std::filesystem::path` on a POSIX system (no root names): an
absolute right operand replaces the left one; otherwise a separator is added when the left
operand has a filename, and the right operand is appended. -/
def path_append (lhs p : String) : String :=
  if is_absolute p then p
  else if has_filename lhs then lhs ++ "/" ++ p
  else lhs ++ p

/-- A result of `std::filesystem::current_path()`: as POSIX `getcwd` does, it names the
working directory by an absolute pathname. -/
structure Cwd where
  path : String
  absolute : is_absolute path = true

/-- The throwing overload of `std::filesystem::absolute` on a POSIX system (libstdc++): it
fails on an empty path, gives back an absolute path as it is, and otherwise answers
`current_path() / p`, failing when `current_path()` fails.  The first argument is the
outcome of `current_path()`; `none` as a result stands for the `filesystem_error` the
function throws. -/
def absolute (current_path : Option Cwd) (p : String) : Option String :=
  if p.data.isEmpty then none
  else if is_absolute p then some p
  else
    match current_path with
    | none => none
    | some cwd => some (path_append cwd.path p)

end fs

namespace install

open vr

/-- The constant `APP_KEY`. -/
def APP_KEY : String := "org.mon-ouie.mpris-openvr-overlay"

/-- What the process gets from its host besides the OpenVR runtime: the outcome of
`std::filesystem::current_path()` (`none` when it fails), and the lines the terminate
handler of the C++ runtime writes to standard error when an exception leaves `main`. -/
structure Host where
  current_path : Option fs.Cwd
  terminate_message : List String

/-- What a run has done so far: the library calls in the order they were made, the lines
written to `std::cout` and to `std::cerr` (one entry for each output statement; each of them
ends its text with a single newline, which is left out of the entry), and how many times
`vr::VRApplications()` has been called. -/
structure World where
  calls : List Call := []
  cout : List String := []
  cerr : List String := []
  fetches : Nat := 0
  deriving DecidableEq, Repr

/-- How a run ends: `main` returns a code; or an exception leaves `main`, so that
`std::terminate` aborts the process and `main` returns nothing; or a method is called through
a null `IVRApplications` pointer, after which the behaviour of the program is undefined. -/
inductive Outcome
  | returned (code : Int)
  | terminated
  | undefined
  deriving DecidableEq, Repr

/-- Everything observable of one run of the program. -/
structure Run where
  calls : List Call
  cout : List String
  cerr : List String
  outcome : Outcome
  deriving DecidableEq, Repr

namespace World

/-- The call `vr::VR_Init(&error, type)`; the result is the value left in `error`. -/
def VR_Init (w : World) (rt : Runtime) (type : EVRApplicationType) : EVRInitError × World :=
  (rt.VR_Init type, { w with calls := w.calls ++ [Call.VR_Init type] })

/-- The call `vr::VR_GetVRInitErrorAsEnglishDescription(error)`. -/
def VR_GetVRInitErrorAsEnglishDescription (w : World) (rt : Runtime) (error : EVRInitError) :
    String × World :=
  (rt.VR_GetVRInitErrorAsEnglishDescription error,
    { w with calls := w.calls ++ [Call.VR_GetVRInitErrorAsEnglishDescription error] })

/-- The call `vr::VRApplications()`; the result tells whether the pointer is non-null. -/
def VRApplications (w : World) (rt : Runtime) : Bool × World :=
  (rt.VRApplications w.fetches,
    { w with calls := w.calls ++ [Call.VRApplications], fetches := w.fetches + 1 })

/-- The call `handle->IsApplicationInstalled(key)`; no result through a null handle. -/
def IsApplicationInstalled (w : World) (rt : Runtime) (handle : Bool) (key : String) :
    Option (Bool × World) :=
  if handle then
    some (rt.IsApplicationInstalled key,
      { w with calls := w.calls ++ [Call.IsApplicationInstalled key] })
  else none

/-- The call `handle->AddApplicationManifest(path)`; no result through a null handle. -/
def AddApplicationManifest (w : World) (rt : Runtime) (handle : Bool) (path : String) :
    Option (EVRApplicationError × World) :=
  if handle then
    some (rt.AddApplicationManifest path,
      { w with calls := w.calls ++ [Call.AddApplicationManifest path] })
  else none

/-- The call `handle->LaunchDashboardOverlay(key)`; no result through a null handle. -/
def LaunchDashboardOverlay (w : World) (rt : Runtime) (handle : Bool) (key : String) :
    Option (EVRApplicationError × World) :=
  if handle then
    some (rt.LaunchDashboardOverlay key,
      { w with calls := w.calls ++ [Call.LaunchDashboardOverlay key] })
  else none

/-- The call `vr::VR_Shutdown()`. -/
def VR_Shutdown (w : World) : World :=
  { w with calls := w.calls ++ [Call.VR_Shutdown] }

/-- An output statement `std::cout << ... << "\n"`. -/
def write_cout (w : World) (line : String) : World :=
  { w with cout := w.cout ++ [line] }

/-- An output statement `std::cerr << ... << "\n"`. -/
def write_cerr (w : World) (line : String) : World :=
  { w with cerr := w.cerr ++ [line] }

/-- The statement `return code;` of `main`. -/
def ret (w : World) (code : Int) : Run :=
  { calls := w.calls, cout := w.cout, cerr := w.cerr, outcome := Outcome.returned code }

/-- An exception leaves `main`: the terminate handler writes its message and the process is
aborted. -/
def terminate (w : World) (os : Host) : Run :=
  { calls := w.calls, cout := w.cout, cerr := w.cerr ++ os.terminate_message,
    outcome := Outcome.terminated }

/-- A method call through a null pointer: the run has no defined continuation. -/
def undefined (w : World) : Run :=
  { calls := w.calls, cout := w.cout, cerr := w.cerr, outcome := Outcome.undefined }

end World

/-- The call `snprintf(buf, size, fmt ++ "%s", arg)`: the formatted text, cut to what fits
in `size` bytes with the terminating zero (texts are taken as one byte per character). -/
def snprintf (size : Nat) (fmt arg : String) : String :=
  (fmt ++ arg).take (size - 1)

/-- The function `main` of install.cpp, run against the responses `rt` of the runtime, in a
process hosted by `os`. -/
def main (rt : Runtime) (os : Host) : Run :=
  let w : World := {}
  let (error, w) := w.VR_Init rt EVRApplicationType.VRApplication_Background
  if error ≠ VRInitError_None then
    let (desc, w) := w.VR_GetVRInitErrorAsEnglishDescription rt error
    let buf := snprintf 1024 "Unable to init VR runtime: " desc
    let w := w.write_cerr buf
    w.ret 1
  else
    let (apps, w) := w.VRApplications rt
    if !apps then
      let w := w.write_cerr "Failed to access VR applications!"
      let w := w.VR_Shutdown
      w.ret 1
    else
      -- the if / else statement on IsApplicationInstalled: either the run has ended in it
      -- (by a return, an exception or a null handle), or control falls through to the launch
      let block : Except Run World :=
        let (apps, w) := w.VRApplications rt
        match w.IsApplicationInstalled rt apps APP_KEY with
        | none => Except.error w.undefined
        | some (installed, w) =>
          if !installed then
            match fs.absolute os.current_path "manifest.vrmanifest" with
            | none => Except.error (w.terminate os)
            | some absolute_path =>
              let (apps, w) := w.VRApplications rt
              match w.AddApplicationManifest rt apps absolute_path with
              | none => Except.error w.undefined
              | some (err, w) =>
                if err ≠ VRApplicationError_None then
                  let w := w.write_cerr ("Failed to install application: " ++ toString err)
                  let w := w.VR_Shutdown
                  Except.error (w.ret 1)
                else
                  Except.ok (w.write_cout "Application installed successfully!")
          else
            Except.ok (w.write_cout "Application already installed")
      match block with
      | Except.error r => r
      | Except.ok w =>
        let (apps, w) := w.VRApplications rt
        match w.LaunchDashboardOverlay rt apps APP_KEY with
        | none => w.undefined
        | some (err, w) =>
          if err ≠ VRApplicationError_None then
            let w := w.write_cerr ("Failed launching overlay: " ++ toString err)
            let w := w.VR_Shutdown
            w.ret 0
          else
            let w := w.VR_Shutdown
            w.ret 0

/-- A mocked runtime with one response for each entry point. -/
def mock (init : EVRInitError) (available installed : Bool)
    (add launch : EVRApplicationError) : Runtime :=
  { VR_Init := fun _ => init
    VR_GetVRInitErrorAsEnglishDescription := fun _ => "Unknown error"
    VRApplications := fun _ => available
    IsApplicationInstalled := fun _ => installed
    AddApplicationManifest := fun _ => add
    LaunchDashboardOverlay := fun _ => launch }

/-- The accessor `vr::VRApplications()` answers every call of the run as it answers the
first one. -/
def steady (rt : Runtime) : Prop :=
  ∀ n, rt.VRApplications n = rt.VRApplications 0

/-- The name "manifest.vrmanifest" resolved against the working directory `cwd`. -/
def manifest_path (cwd : fs.Cwd) : String :=
  fs.path_append cwd.path "manifest.vrmanifest"

/-- A host whose working directory is /home/user. -/
def home_user : Host :=
  { current_path := some ⟨"/home/user", rfl⟩
    terminate_message := [] }

/-- A host whose working directory has been removed, so that `current_path()` fails, with a
terminate handler that writes two lines. -/
def removed_cwd : Host :=
  { current_path := none
    terminate_message :=
      ["terminate called after throwing an instance of std::filesystem::filesystem_error",
        "  what():  filesystem error: cannot get current path: No such file or directory"] }

/-- The registration calls of a run. -/
def is_registration : Call → Bool
  | Call.AddApplicationManifest _ => true
  | _ => false

/-- The launch calls of a run. -/
def is_launch : Call → Bool
  | Call.LaunchDashboardOverlay _ => true
  | _ => false

/-- The release calls of a run. -/
def is_shutdown : Call → Bool
  | Call.VR_Shutdown => true
  | _ => false

/-- The calls made through the `IVRApplications` handle. -/
def is_registry_call : Call → Bool
  | Call.IsApplicationInstalled _ => true
  | Call.AddApplicationManifest _ => true
  | Call.LaunchDashboardOverlay _ => true
  | _ => false

/-- The calls that act on the runtime: connecting, the registry operations and the release.
Fetching the interface pointer and looking up the text of an error code are left out. -/
def is_operation : Call → Bool
  | Call.VRApplications => false
  | Call.VR_GetVRInitErrorAsEnglishDescription _ => false
  | _ => true

namespace Run

/-- How many times `AddApplicationManifest` was called. -/
def registrations (r : Run) : Nat :=
  r.calls.countP is_registration

/-- How many times `LaunchDashboardOverlay` was called. -/
def launches (r : Run) : Nat :=
  r.calls.countP is_launch

/-- How many times `VR_Shutdown` was called. -/
def shutdowns (r : Run) : Nat :=
  r.calls.countP is_shutdown

/-- The calls of the run that act on the runtime, in order. -/
def operations (r : Run) : List Call :=
  r.calls.filter is_operation

/-- The number of lines written to standard output and standard error together. -/
def lines (r : Run) : Nat :=
  r.cout.length + r.cerr.length

end Run

/-- Modelled from the spec: the state of the runtime's application registry between two
runs of the program, which lives in the runtime and not in install.cpp.  A registration
that succeeds leaves the identifier registered ("manifest accepted, identifier now
registered"), a failed one changes nothing ("nothing was partially mutated"), and the
program never unregisters.  The result is the runtime the next run talks to: the same
responses, with the identifier registered if it was before or if the run registered it. -/
def after_run (rt : Runtime) (r : Run) : Runtime :=
  { rt with
    IsApplicationInstalled := fun key =>
      rt.IsApplicationInstalled key ||
        (key == APP_KEY &&
          r.calls.any fun c =>
            match c with
            | Call.AddApplicationManifest path =>
              rt.AddApplicationManifest path == VRApplicationError_None
            | _ => false) }

/-- The manifest name is resolved against the working directory when there is one. -/
theorem absolute_manifest (cwd : fs.Cwd) :
    fs.absolute (some cwd) "manifest.vrmanifest" = some (manifest_path cwd) := by
  have hrel : fs.is_absolute "manifest.vrmanifest" = false := by decide
  have hne : ("manifest.vrmanifest" : String).data.isEmpty = false := by decide
  simp [fs.absolute, manifest_path, hrel, hne]

/-- Without a working directory the resolution of the manifest name fails. -/
theorem absolute_manifest_none : fs.absolute none "manifest.vrmanifest" = none := by
  have hrel : fs.is_absolute "manifest.vrmanifest" = false := by decide
  have hne : ("manifest.vrmanifest" : String).data.isEmpty = false := by decide
  simp [fs.absolute, hrel, hne]

theorem main_init_failed (rt : Runtime) (os : Host)
    (hinit : rt.VR_Init EVRApplicationType.VRApplication_Background ≠ VRInitError_None) :
    main rt os =
      { calls := [Call.VR_Init EVRApplicationType.VRApplication_Background,
          Call.VR_GetVRInitErrorAsEnglishDescription
            (rt.VR_Init EVRApplicationType.VRApplication_Background)]
        cout := []
        cerr := [snprintf 1024 "Unable to init VR runtime: "
          (rt.VR_GetVRInitErrorAsEnglishDescription
            (rt.VR_Init EVRApplicationType.VRApplication_Background))]
        outcome := Outcome.returned 1 } := by
  simp [main, World.VR_Init, World.VR_GetVRInitErrorAsEnglishDescription, World.write_cerr,
    World.ret, hinit]

theorem main_unavailable (rt : Runtime) (os : Host)
    (hinit : rt.VR_Init EVRApplicationType.VRApplication_Background = VRInitError_None)
    (happs : rt.VRApplications 0 = false) :
    main rt os =
      { calls := [Call.VR_Init EVRApplicationType.VRApplication_Background,
          Call.VRApplications, Call.VR_Shutdown]
        cout := []
        cerr := ["Failed to access VR applications!"]
        outcome := Outcome.returned 1 } := by
  simp [main, World.VR_Init, World.VRApplications, World.write_cerr, World.VR_Shutdown,
    World.ret, hinit, happs]

theorem main_installed (rt : Runtime) (os : Host)
    (hinit : rt.VR_Init EVRApplicationType.VRApplication_Background = VRInitError_None)
    (h0 : rt.VRApplications 0 = true) (h1 : rt.VRApplications 1 = true)
    (h2 : rt.VRApplications 2 = true)
    (hinst : rt.IsApplicationInstalled APP_KEY = true) :
    main rt os =
      { calls := [Call.VR_Init EVRApplicationType.VRApplication_Background,
          Call.VRApplications, Call.VRApplications, Call.IsApplicationInstalled APP_KEY,
          Call.VRApplications, Call.LaunchDashboardOverlay APP_KEY, Call.VR_Shutdown]
        cout := ["Application already installed"]
        cerr := if rt.LaunchDashboardOverlay APP_KEY ≠ VRApplicationError_None then
            ["Failed launching overlay: " ++ toString (rt.LaunchDashboardOverlay APP_KEY)]
          else []
        outcome := Outcome.returned 0 } := by
  simp [main, World.VR_Init, World.VRApplications, World.IsApplicationInstalled,
    World.LaunchDashboardOverlay, World.write_cerr, World.write_cout, World.VR_Shutdown,
    World.ret, hinit, h0, h1, h2, hinst]
  split <;> simp

theorem main_terminated (rt : Runtime) (os : Host)
    (hinit : rt.VR_Init EVRApplicationType.VRApplication_Background = VRInitError_None)
    (h0 : rt.VRApplications 0 = true) (h1 : rt.VRApplications 1 = true)
    (hinst : rt.IsApplicationInstalled APP_KEY = false)
    (hcwd : os.current_path = none) :
    main rt os =
      { calls := [Call.VR_Init EVRApplicationType.VRApplication_Background,
          Call.VRApplications, Call.VRApplications, Call.IsApplicationInstalled APP_KEY]
        cout := []
        cerr := os.terminate_message
        outcome := Outcome.terminated } := by
  simp [main, World.VR_Init, World.VRApplications, World.IsApplicationInstalled,
    World.terminate, hinit, h0, h1, hinst, hcwd, absolute_manifest_none]

theorem main_add_failed (rt : Runtime) (os : Host) (cwd : fs.Cwd)
    (hinit : rt.VR_Init EVRApplicationType.VRApplication_Background = VRInitError_None)
    (h0 : rt.VRApplications 0 = true) (h1 : rt.VRApplications 1 = true)
    (h2 : rt.VRApplications 2 = true)
    (hinst : rt.IsApplicationInstalled APP_KEY = false)
    (hcwd : os.current_path = some cwd)
    (hadd : rt.AddApplicationManifest (manifest_path cwd) ≠ VRApplicationError_None) :
    main rt os =
      { calls := [Call.VR_Init EVRApplicationType.VRApplication_Background,
          Call.VRApplications, Call.VRApplications, Call.IsApplicationInstalled APP_KEY,
          Call.VRApplications, Call.AddApplicationManifest (manifest_path cwd),
          Call.VR_Shutdown]
        cout := []
        cerr := ["Failed to install application: " ++
          toString (rt.AddApplicationManifest (manifest_path cwd))]
        outcome := Outcome.returned 1 } := by
  simp [main, World.VR_Init, World.VRApplications, World.IsApplicationInstalled,
    World.AddApplicationManifest, World.write_cerr, World.VR_Shutdown, World.ret, hinit,
    h0, h1, h2, hinst, hcwd, absolute_manifest, hadd]

theorem main_added (rt : Runtime) (os : Host) (cwd : fs.Cwd)
    (hinit : rt.VR_Init EVRApplicationType.VRApplication_Background = VRInitError_None)
    (h0 : rt.VRApplications 0 = true) (h1 : rt.VRApplications 1 = true)
    (h2 : rt.VRApplications 2 = true) (h3 : rt.VRApplications 3 = true)
    (hinst : rt.IsApplicationInstalled APP_KEY = false)
    (hcwd : os.current_path = some cwd)
    (hadd : rt.AddApplicationManifest (manifest_path cwd) = VRApplicationError_None) :
    main rt os =
      { calls := [Call.VR_Init EVRApplicationType.VRApplication_Background,
          Call.VRApplications, Call.VRApplications, Call.IsApplicationInstalled APP_KEY,
          Call.VRApplications, Call.AddApplicationManifest (manifest_path cwd),
          Call.VRApplications, Call.LaunchDashboardOverlay APP_KEY, Call.VR_Shutdown]
        cout := ["Application installed successfully!"]
        cerr := if rt.LaunchDashboardOverlay APP_KEY ≠ VRApplicationError_None then
            ["Failed launching overlay: " ++ toString (rt.LaunchDashboardOverlay APP_KEY)]
          else []
        outcome := Outcome.returned 0 } := by
  simp [main, World.VR_Init, World.VRApplications, World.IsApplicationInstalled,
    World.AddApplicationManifest, World.LaunchDashboardOverlay, World.write_cerr,
    World.write_cout, World.VR_Shutdown, World.ret, hinit, h0, h1, h2, h3, hinst, hcwd,
    absolute_manifest, hadd]
  split <;> simp

theorem main_null_at_installed_check (rt : Runtime) (os : Host)
    (hinit : rt.VR_Init EVRApplicationType.VRApplication_Background = VRInitError_None)
    (h0 : rt.VRApplications 0 = true) (h1 : rt.VRApplications 1 = false) :
    main rt os =
      { calls := [Call.VR_Init EVRApplicationType.VRApplication_Background,
          Call.VRApplications, Call.VRApplications]
        cout := []
        cerr := []
        outcome := Outcome.undefined } := by
  simp [main, World.VR_Init, World.VRApplications, World.IsApplicationInstalled,
    World.undefined, hinit, h0, h1]

theorem main_null_at_add (rt : Runtime) (os : Host) (cwd : fs.Cwd)
    (hinit : rt.VR_Init EVRApplicationType.VRApplication_Background = VRInitError_None)
    (h0 : rt.VRApplications 0 = true) (h1 : rt.VRApplications 1 = true)
    (h2 : rt.VRApplications 2 = false)
    (hinst : rt.IsApplicationInstalled APP_KEY = false)
    (hcwd : os.current_path = some cwd) :
    main rt os =
      { calls := [Call.VR_Init EVRApplicationType.VRApplication_Background,
          Call.VRApplications, Call.VRApplications, Call.IsApplicationInstalled APP_KEY,
          Call.VRApplications]
        cout := []
        cerr := []
        outcome := Outcome.undefined } := by
  simp [main, World.VR_Init, World.VRApplications, World.IsApplicationInstalled,
    World.AddApplicationManifest, World.undefined, hinit, h0, h1, h2, hinst, hcwd,
    absolute_manifest]

theorem main_null_at_launch_installed (rt : Runtime) (os : Host)
    (hinit : rt.VR_Init EVRApplicationType.VRApplication_Background = VRInitError_None)
    (h0 : rt.VRApplications 0 = true) (h1 : rt.VRApplications 1 = true)
    (h2 : rt.VRApplications 2 = false)
    (hinst : rt.IsApplicationInstalled APP_KEY = true) :
    main rt os =
      { calls := [Call.VR_Init EVRApplicationType.VRApplication_Background,
          Call.VRApplications, Call.VRApplications, Call.IsApplicationInstalled APP_KEY,
          Call.VRApplications]
        cout := ["Application already installed"]
        cerr := []
        outcome := Outcome.undefined } := by
  simp [main, World.VR_Init, World.VRApplications, World.IsApplicationInstalled,
    World.LaunchDashboardOverlay, World.write_cout, World.undefined, hinit, h0, h1, h2,
    hinst]

theorem main_null_at_launch_added (rt : Runtime) (os : Host) (cwd : fs.Cwd)
    (hinit : rt.VR_Init EVRApplicationType.VRApplication_Background = VRInitError_None)
    (h0 : rt.VRApplications 0 = true) (h1 : rt.VRApplications 1 = true)
    (h2 : rt.VRApplications 2 = true) (h3 : rt.VRApplications 3 = false)
    (hinst : rt.IsApplicationInstalled APP_KEY = false)
    (hcwd : os.current_path = some cwd)
    (hadd : rt.AddApplicationManifest (manifest_path cwd) = VRApplicationError_None) :
    main rt os =
      { calls := [Call.VR_Init EVRApplicationType.VRApplication_Background,
          Call.VRApplications, Call.VRApplications, Call.IsApplicationInstalled APP_KEY,
          Call.VRApplications, Call.AddApplicationManifest (manifest_path cwd),
          Call.VRApplications]
        cout := ["Application installed successfully!"]
        cerr := []
        outcome := Outcome.undefined } := by
  simp [main, World.VR_Init, World.VRApplications, World.IsApplicationInstalled,
    World.AddApplicationManifest, World.LaunchDashboardOverlay, World.write_cout,
    World.undefined, hinit, h0, h1, h2, h3, hinst, hcwd, absolute_manifest, hadd]

/-- Every run of `main` is one of ten: five that return, one that ends in `std::terminate`,
and four that stop on a call through a null handle. -/
theorem main_cases (rt : Runtime) (os : Host) :
    (rt.VR_Init EVRApplicationType.VRApplication_Background ≠ VRInitError_None ∧
      main rt os =
        { calls := [Call.VR_Init EVRApplicationType.VRApplication_Background,
            Call.VR_GetVRInitErrorAsEnglishDescription
              (rt.VR_Init EVRApplicationType.VRApplication_Background)]
          cout := []
          cerr := [snprintf 1024 "Unable to init VR runtime: "
            (rt.VR_GetVRInitErrorAsEnglishDescription
              (rt.VR_Init EVRApplicationType.VRApplication_Background))]
          outcome := Outcome.returned 1 }) ∨
    (rt.VR_Init EVRApplicationType.VRApplication_Background = VRInitError_None ∧
      rt.VRApplications 0 = false ∧
      main rt os =
        { calls := [Call.VR_Init EVRApplicationType.VRApplication_Background,
            Call.VRApplications, Call.VR_Shutdown]
          cout := []
          cerr := ["Failed to access VR applications!"]
          outcome := Outcome.returned 1 }) ∨
    (rt.VR_Init EVRApplicationType.VRApplication_Background = VRInitError_None ∧
      rt.VRApplications 0 = true ∧
      rt.VRApplications 1 = true ∧
      rt.VRApplications 2 = true ∧
      rt.IsApplicationInstalled APP_KEY = true ∧
      main rt os =
        { calls := [Call.VR_Init EVRApplicationType.VRApplication_Background,
            Call.VRApplications, Call.VRApplications,
            Call.IsApplicationInstalled APP_KEY, Call.VRApplications,
            Call.LaunchDashboardOverlay APP_KEY, Call.VR_Shutdown]
          cout := ["Application already installed"]
          cerr := if rt.LaunchDashboardOverlay APP_KEY ≠ VRApplicationError_None then
              ["Failed launching overlay: " ++ toString (rt.LaunchDashboardOverlay APP_KEY)]
            else []
          outcome := Outcome.returned 0 }) ∨
    (rt.VR_Init EVRApplicationType.VRApplication_Background = VRInitError_None ∧
      rt.VRApplications 0 = true ∧
      rt.VRApplications 1 = true ∧
      rt.IsApplicationInstalled APP_KEY = false ∧
      os.current_path = none ∧
      main rt os =
        { calls := [Call.VR_Init EVRApplicationType.VRApplication_Background,
            Call.VRApplications, Call.VRApplications,
            Call.IsApplicationInstalled APP_KEY]
          cout := []
          cerr := os.terminate_message
          outcome := Outcome.terminated }) ∨
    (∃ cwd : fs.Cwd,
      os.current_path = some cwd ∧
      rt.VR_Init EVRApplicationType.VRApplication_Background = VRInitError_None ∧
      rt.VRApplications 0 = true ∧
      rt.VRApplications 1 = true ∧
      rt.VRApplications 2 = true ∧
      rt.IsApplicationInstalled APP_KEY = false ∧
      rt.AddApplicationManifest (manifest_path cwd) ≠ VRApplicationError_None ∧
      main rt os =
        { calls := [Call.VR_Init EVRApplicationType.VRApplication_Background,
            Call.VRApplications, Call.VRApplications,
            Call.IsApplicationInstalled APP_KEY, Call.VRApplications,
            Call.AddApplicationManifest (manifest_path cwd), Call.VR_Shutdown]
          cout := []
          cerr := ["Failed to install application: " ++
            toString (rt.AddApplicationManifest (manifest_path cwd))]
          outcome := Outcome.returned 1 }) ∨
    (∃ cwd : fs.Cwd,
      os.current_path = some cwd ∧
      rt.VR_Init EVRApplicationType.VRApplication_Background = VRInitError_None ∧
      rt.VRApplications 0 = true ∧
      rt.VRApplications 1 = true ∧
      rt.VRApplications 2 = true ∧
      rt.VRApplications 3 = true ∧
      rt.IsApplicationInstalled APP_KEY = false ∧
      rt.AddApplicationManifest (manifest_path cwd) = VRApplicationError_None ∧
      main rt os =
        { calls := [Call.VR_Init EVRApplicationType.VRApplication_Background,
            Call.VRApplications, Call.VRApplications,
            Call.IsApplicationInstalled APP_KEY, Call.VRApplications,
            Call.AddApplicationManifest (manifest_path cwd), Call.VRApplications,
            Call.LaunchDashboardOverlay APP_KEY, Call.VR_Shutdown]
          cout := ["Application installed successfully!"]
          cerr := if rt.LaunchDashboardOverlay APP_KEY ≠ VRApplicationError_None then
              ["Failed launching overlay: " ++ toString (rt.LaunchDashboardOverlay APP_KEY)]
            else []
          outcome := Outcome.returned 0 }) ∨
    (rt.VR_Init EVRApplicationType.VRApplication_Background = VRInitError_None ∧
      rt.VRApplications 0 = true ∧
      rt.VRApplications 1 = false ∧
      main rt os =
        { calls := [Call.VR_Init EVRApplicationType.VRApplication_Background,
            Call.VRApplications, Call.VRApplications]
          cout := []
          cerr := []
          outcome := Outcome.undefined }) ∨
    (∃ cwd : fs.Cwd,
      os.current_path = some cwd ∧
      rt.VR_Init EVRApplicationType.VRApplication_Background = VRInitError_None ∧
      rt.VRApplications 0 = true ∧
      rt.VRApplications 1 = true ∧
      rt.VRApplications 2 = false ∧
      rt.IsApplicationInstalled APP_KEY = false ∧
      main rt os =
        { calls := [Call.VR_Init EVRApplicationType.VRApplication_Background,
            Call.VRApplications, Call.VRApplications,
            Call.IsApplicationInstalled APP_KEY, Call.VRApplications]
          cout := []
          cerr := []
          outcome := Outcome.undefined }) ∨
    (rt.VR_Init EVRApplicationType.VRApplication_Background = VRInitError_None ∧
      rt.VRApplications 0 = true ∧
      rt.VRApplications 1 = true ∧
      rt.VRApplications 2 = false ∧
      rt.IsApplicationInstalled APP_KEY = true ∧
      main rt os =
        { calls := [Call.VR_Init EVRApplicationType.VRApplication_Background,
            Call.VRApplications, Call.VRApplications,
            Call.IsApplicationInstalled APP_KEY, Call.VRApplications]
          cout := ["Application already installed"]
          cerr := []
          outcome := Outcome.undefined }) ∨
    (∃ cwd : fs.Cwd,
      os.current_path = some cwd ∧
      rt.VR_Init EVRApplicationType.VRApplication_Background = VRInitError_None ∧
      rt.VRApplications 0 = true ∧
      rt.VRApplications 1 = true ∧
      rt.VRApplications 2 = true ∧
      rt.VRApplications 3 = false ∧
      rt.IsApplicationInstalled APP_KEY = false ∧
      rt.AddApplicationManifest (manifest_path cwd) = VRApplicationError_None ∧
      main rt os =
        { calls := [Call.VR_Init EVRApplicationType.VRApplication_Background,
            Call.VRApplications, Call.VRApplications,
            Call.IsApplicationInstalled APP_KEY, Call.VRApplications,
            Call.AddApplicationManifest (manifest_path cwd), Call.VRApplications]
          cout := ["Application installed successfully!"]
          cerr := []
          outcome := Outcome.undefined }) := by
  by_cases hinit : rt.VR_Init EVRApplicationType.VRApplication_Background = VRInitError_None
  swap
  · exact Or.inl ⟨hinit, main_init_failed rt os hinit⟩
  cases h0 : rt.VRApplications 0
  · exact Or.inr (Or.inl ⟨hinit, rfl, main_unavailable rt os hinit h0⟩)
  cases h1 : rt.VRApplications 1
  · exact Or.inr (Or.inr (Or.inr (Or.inr (Or.inr (Or.inr (Or.inl 
      ⟨hinit, rfl, rfl, main_null_at_installed_check rt os hinit h0 h1⟩))))))
  cases hinst : rt.IsApplicationInstalled APP_KEY
  · cases hcwd : os.current_path with
    | none =>
      exact Or.inr (Or.inr (Or.inr (Or.inl 
        ⟨hinit, rfl, rfl, rfl, rfl, main_terminated rt os hinit h0 h1 hinst hcwd⟩)))
    | some cwd =>
      cases h2 : rt.VRApplications 2
      · exact Or.inr (Or.inr (Or.inr (Or.inr (Or.inr (Or.inr (Or.inr (Or.inl 
          ⟨cwd, rfl, hinit, rfl, rfl, rfl, rfl,
            main_null_at_add rt os cwd hinit h0 h1 h2 hinst hcwd⟩)))))))
      by_cases hadd : rt.AddApplicationManifest (manifest_path cwd) = VRApplicationError_None
      · cases h3 : rt.VRApplications 3
        · exact Or.inr (Or.inr (Or.inr (Or.inr (Or.inr (Or.inr (Or.inr (Or.inr (Or.inr (
            ⟨cwd, rfl, hinit, rfl, rfl, rfl, rfl, rfl, hadd,
              main_null_at_launch_added rt os cwd hinit h0 h1 h2 h3 hinst hcwd hadd⟩)))))))))
        · exact Or.inr (Or.inr (Or.inr (Or.inr (Or.inr (Or.inl 
            ⟨cwd, rfl, hinit, rfl, rfl, rfl, rfl, rfl, hadd,
              main_added rt os cwd hinit h0 h1 h2 h3 hinst hcwd hadd⟩)))))
      · exact Or.inr (Or.inr (Or.inr (Or.inr (Or.inl 
          ⟨cwd, rfl, hinit, rfl, rfl, rfl, rfl, hadd,
            main_add_failed rt os cwd hinit h0 h1 h2 hinst hcwd hadd⟩))))
  · cases h2 : rt.VRApplications 2
    · exact Or.inr (Or.inr (Or.inr (Or.inr (Or.inr (Or.inr (Or.inr (Or.inr (Or.inl 
        ⟨hinit, rfl, rfl, rfl, rfl,
          main_null_at_launch_installed rt os hinit h0 h1 h2 hinst⟩))))))))
    · exact Or.inr (Or.inr (Or.inl 
        ⟨hinit, rfl, rfl, rfl, rfl, main_installed rt os hinit h0 h1 h2 hinst⟩))

/-- With a steady accessor a run of `main` is one of the five that return, or the one that
ends in `std::terminate`. -/
theorem main_steady_cases (rt : Runtime) (os : Host) (hs : steady rt) :
    (rt.VR_Init EVRApplicationType.VRApplication_Background ≠ VRInitError_None ∧
      main rt os =
        { calls := [Call.VR_Init EVRApplicationType.VRApplication_Background,
            Call.VR_GetVRInitErrorAsEnglishDescription
              (rt.VR_Init EVRApplicationType.VRApplication_Background)]
          cout := []
          cerr := [snprintf 1024 "Unable to init VR runtime: "
            (rt.VR_GetVRInitErrorAsEnglishDescription
              (rt.VR_Init EVRApplicationType.VRApplication_Background))]
          outcome := Outcome.returned 1 }) ∨
    (rt.VR_Init EVRApplicationType.VRApplication_Background = VRInitError_None ∧
      rt.VRApplications 0 = false ∧
      main rt os =
        { calls := [Call.VR_Init EVRApplicationType.VRApplication_Background,
            Call.VRApplications, Call.VR_Shutdown]
          cout := []
          cerr := ["Failed to access VR applications!"]
          outcome := Outcome.returned 1 }) ∨
    (rt.VR_Init EVRApplicationType.VRApplication_Background = VRInitError_None ∧
      rt.VRApplications 0 = true ∧
      rt.IsApplicationInstalled APP_KEY = true ∧
      main rt os =
        { calls := [Call.VR_Init EVRApplicationType.VRApplication_Background,
            Call.VRApplications, Call.VRApplications,
            Call.IsApplicationInstalled APP_KEY, Call.VRApplications,
            Call.LaunchDashboardOverlay APP_KEY, Call.VR_Shutdown]
          cout := ["Application already installed"]
          cerr := if rt.LaunchDashboardOverlay APP_KEY ≠ VRApplicationError_None then
              ["Failed launching overlay: " ++ toString (rt.LaunchDashboardOverlay APP_KEY)]
            else []
          outcome := Outcome.returned 0 }) ∨
    (rt.VR_Init EVRApplicationType.VRApplication_Background = VRInitError_None ∧
      rt.VRApplications 0 = true ∧
      rt.IsApplicationInstalled APP_KEY = false ∧
      os.current_path = none ∧
      main rt os =
        { calls := [Call.VR_Init EVRApplicationType.VRApplication_Background,
            Call.VRApplications, Call.VRApplications,
            Call.IsApplicationInstalled APP_KEY]
          cout := []
          cerr := os.terminate_message
          outcome := Outcome.terminated }) ∨
    (∃ cwd : fs.Cwd,
      os.current_path = some cwd ∧
      rt.VR_Init EVRApplicationType.VRApplication_Background = VRInitError_None ∧
      rt.VRApplications 0 = true ∧
      rt.IsApplicationInstalled APP_KEY = false ∧
      rt.AddApplicationManifest (manifest_path cwd) ≠ VRApplicationError_None ∧
      main rt os =
        { calls := [Call.VR_Init EVRApplicationType.VRApplication_Background,
            Call.VRApplications, Call.VRApplications,
            Call.IsApplicationInstalled APP_KEY, Call.VRApplications,
            Call.AddApplicationManifest (manifest_path cwd), Call.VR_Shutdown]
          cout := []
          cerr := ["Failed to install application: " ++
            toString (rt.AddApplicationManifest (manifest_path cwd))]
          outcome := Outcome.returned 1 }) ∨
    (∃ cwd : fs.Cwd,
      os.current_path = some cwd ∧
      rt.VR_Init EVRApplicationType.VRApplication_Background = VRInitError_None ∧
      rt.VRApplications 0 = true ∧
      rt.IsApplicationInstalled APP_KEY = false ∧
      rt.AddApplicationManifest (manifest_path cwd) = VRApplicationError_None ∧
      main rt os =
        { calls := [Call.VR_Init EVRApplicationType.VRApplication_Background,
            Call.VRApplications, Call.VRApplications,
            Call.IsApplicationInstalled APP_KEY, Call.VRApplications,
            Call.AddApplicationManifest (manifest_path cwd), Call.VRApplications,
            Call.LaunchDashboardOverlay APP_KEY, Call.VR_Shutdown]
          cout := ["Application installed successfully!"]
          cerr := if rt.LaunchDashboardOverlay APP_KEY ≠ VRApplicationError_None then
              ["Failed launching overlay: " ++ toString (rt.LaunchDashboardOverlay APP_KEY)]
            else []
          outcome := Outcome.returned 0 }) := by
  have e1 := hs 1
  have e2 := hs 2
  have e3 := hs 3
  rcases main_cases rt os with ⟨h, e⟩ | ⟨h, h0, e⟩ | ⟨h, h0, _, _, hi, e⟩ |
    ⟨h, h0, _, hi, hc, e⟩ | ⟨cwd, hc, h, h0, _, _, hi, ha, e⟩ |
    ⟨cwd, hc, h, h0, _, _, _, hi, ha, e⟩ | ⟨_, h0, h1, _⟩ |
    ⟨_, _, _, h0, _, h2, _⟩ | ⟨_, h0, _, h2, _⟩ | ⟨_, _, _, h0, _, _, h3, _⟩
  · exact Or.inl ⟨h, e⟩
  · exact Or.inr (Or.inl ⟨h, h0, e⟩)
  · exact Or.inr (Or.inr (Or.inl ⟨h, h0, hi, e⟩))
  · exact Or.inr (Or.inr (Or.inr (Or.inl ⟨h, h0, hi, hc, e⟩)))
  · exact Or.inr (Or.inr (Or.inr (Or.inr (Or.inl ⟨cwd, hc, h, h0, hi, ha, e⟩))))
  · exact Or.inr (Or.inr (Or.inr (Or.inr (Or.inr (⟨cwd, hc, h, h0, hi, ha, e⟩)))))
  · rw [h0, h1] at e1; exact absurd e1 (by decide)
  · rw [h0, h2] at e2; exact absurd e2 (by decide)
  · rw [h0, h2] at e2; exact absurd e2 (by decide)
  · rw [h0, h3] at e3; exact absurd e3 (by decide)

/-- With a steady accessor, a run ends in `std::terminate` exactly when the runtime
initialises, the applications interface is there, the identifier is not installed, and
`current_path()` fails. -/
theorem terminated_iff (rt : Runtime) (os : Host) (hs : steady rt) :
    (main rt os).outcome = Outcome.terminated ↔
      rt.VR_Init EVRApplicationType.VRApplication_Background = VRInitError_None ∧
      rt.VRApplications 0 = true ∧
      rt.IsApplicationInstalled APP_KEY = false ∧
      os.current_path = none := by
  rcases main_steady_cases rt os hs with ⟨h, e⟩ | ⟨h, h0, e⟩ | ⟨h, h0, hi, e⟩ |
    ⟨h, h0, hi, hc, e⟩ | ⟨cwd, hc, h, h0, hi, ha, e⟩ | ⟨cwd, hc, h, h0, hi, ha, e⟩ <;>
  (rw [e]; simp_all)

/-- C1 fails on the code: the runtime initialises, the applications interface is there, the
identifier is not installed and `AddApplicationManifest` would succeed, but the working
directory has been removed.  None of the conditions of exit code 1 holds, and the run does not
return 0: `std::filesystem::absolute` throws, and the run ends in `std::terminate`. -/
theorem exit_code_lost_on_uncaught_exception :
    steady (mock 0 true false 0 0) ∧
    (main (mock 0 true false 0 0) removed_cwd).outcome = Outcome.terminated ∧
    (main (mock 0 true false 0 0) removed_cwd).outcome ≠ Outcome.returned 0 ∧
    (main (mock 0 true false 0 0) removed_cwd).outcome ≠ Outcome.returned 1 :=
  ⟨fun _ => rfl, by decide, by decide, by decide⟩

/-- C2 fails on the code: with the working directory removed and the identifier not
installed, `VR_Init` succeeds and `VR_Shutdown` is never called, the exception of
`std::filesystem::absolute` leaving `main` right after the installed check. -/
theorem no_shutdown_on_uncaught_exception :
    steady (mock 0 true false 0 0) ∧
    (mock 0 true false 0 0).VR_Init EVRApplicationType.VRApplication_Background =
      VRInitError_None ∧
    (main (mock 0 true false 0 0) removed_cwd).shutdowns = 0 ∧
    (main (mock 0 true false 0 0) removed_cwd).calls.getLast? =
      some (Call.IsApplicationInstalled APP_KEY) :=
  ⟨fun _ => rfl, rfl, by decide, by decide⟩

/-- C3: in every run of `main`, if `IsApplicationInstalled` answers true for the
application identifier then `AddApplicationManifest` is not called. -/
theorem no_registration_when_installed (rt : Runtime) (os : Host)
    (hinst : rt.IsApplicationInstalled APP_KEY = true) :
    (main rt os).registrations = 0 ∧
    ∀ path, Call.AddApplicationManifest path ∉ (main rt os).calls := by
  rcases main_cases rt os with ⟨_, e⟩ | ⟨_, _, e⟩ | ⟨_, _, _, _, _, e⟩ |
    ⟨_, _, _, hi, _, _⟩ | ⟨_, _, _, _, _, _, hi, _, _⟩ |
    ⟨_, _, _, _, _, _, _, hi, _, _⟩ | ⟨_, _, _, e⟩ |
    ⟨_, _, _, _, _, _, hi, _⟩ | ⟨_, _, _, _, _, e⟩ | ⟨_, _, _, _, _, _, _, hi, _, _⟩ <;>
  first
    | (rw [hinst] at hi; exact absurd hi (by decide))
    | simp [e, Run.registrations, is_registration, List.countP_cons]

/-- C3, at a runtime where the identifier is installed. -/
theorem no_registration_when_installed_witness :
    (mock 0 true true 0 0).IsApplicationInstalled APP_KEY = true ∧
    (main (mock 0 true true 0 0) home_user).registrations = 0 :=
  ⟨rfl, (no_registration_when_installed (mock 0 true true 0 0) home_user rfl).1⟩

/-- When `current_path()` succeeds and the accessor is steady, the exit code is 1 exactly
on an initialisation failure, an absent applications interface, or a failed registration of
an identifier that is not installed, and 0 otherwise. -/
theorem exit_code_with_cwd (rt : Runtime) (os : Host) (cwd : fs.Cwd) (hs : steady rt)
    (hcwd : os.current_path = some cwd) :
    ((main rt os).outcome = Outcome.returned 1 ↔
      (rt.VR_Init EVRApplicationType.VRApplication_Background ≠ VRInitError_None ∨
        rt.VRApplications 0 = false ∨
        (rt.IsApplicationInstalled APP_KEY = false ∧
          rt.AddApplicationManifest (manifest_path cwd) ≠ VRApplicationError_None))) ∧
    ((main rt os).outcome = Outcome.returned 0 ↔
      ¬ (rt.VR_Init EVRApplicationType.VRApplication_Background ≠ VRInitError_None ∨
        rt.VRApplications 0 = false ∨
        (rt.IsApplicationInstalled APP_KEY = false ∧
          rt.AddApplicationManifest (manifest_path cwd) ≠ VRApplicationError_None))) := by
  rcases main_steady_cases rt os hs with ⟨h, e⟩ | ⟨h, h0, e⟩ | ⟨h, h0, hi, e⟩ |
    ⟨h, h0, hi, hc, e⟩ | ⟨c, hc, h, h0, hi, ha, e⟩ | ⟨c, hc, h, h0, hi, ha, e⟩ <;>
  (rw [e]; simp_all)

/-- When `current_path()` succeeds and the accessor is steady, `VR_Shutdown` is called once
if `VR_Init` succeeded, as the last call, and not at all otherwise. -/
theorem shutdown_with_cwd (rt : Runtime) (os : Host) (cwd : fs.Cwd) (hs : steady rt)
    (hcwd : os.current_path = some cwd) :
    ((main rt os).shutdowns = 1 ↔
      rt.VR_Init EVRApplicationType.VRApplication_Background = VRInitError_None) ∧
    (rt.VR_Init EVRApplicationType.VRApplication_Background ≠ VRInitError_None →
      (main rt os).shutdowns = 0) ∧
    (rt.VR_Init EVRApplicationType.VRApplication_Background = VRInitError_None →
      (main rt os).calls.getLast? = some Call.VR_Shutdown) := by
  rcases main_steady_cases rt os hs with ⟨h, e⟩ | ⟨h, h0, e⟩ | ⟨h, h0, hi, e⟩ |
    ⟨h, h0, hi, hc, e⟩ | ⟨c, hc, h, h0, hi, ha, e⟩ | ⟨c, hc, h, h0, hi, ha, e⟩ <;>
  (rw [e]; simp_all [Run.shutdowns, is_shutdown, List.countP_cons])

/-- When `current_path()` succeeds and the accessor is steady, `LaunchDashboardOverlay` is
called once in a run that returns 0 and not at all in a run that returns 1. -/
theorem launches_with_cwd (rt : Runtime) (os : Host) (cwd : fs.Cwd) (hs : steady rt)
    (hcwd : os.current_path = some cwd) :
    ((main rt os).outcome = Outcome.returned 0 → (main rt os).launches = 1) ∧
    ((main rt os).outcome = Outcome.returned 1 → (main rt os).launches = 0) := by
  rcases main_steady_cases rt os hs with ⟨h, e⟩ | ⟨h, h0, e⟩ | ⟨h, h0, hi, e⟩ |
    ⟨h, h0, hi, hc, e⟩ | ⟨c, hc, h, h0, hi, ha, e⟩ | ⟨c, hc, h, h0, hi, ha, e⟩ <;>
  (rw [e]; simp_all [Run.launches, is_launch, List.countP_cons])

/-- When `current_path()` succeeds and the accessor is steady, the calls that act on the
runtime form one of five sequences, chosen by the responses. -/
theorem operations_with_cwd (rt : Runtime) (os : Host) (cwd : fs.Cwd) (hs : steady rt)
    (hcwd : os.current_path = some cwd) :
    (main rt os).operations =
      if rt.VR_Init EVRApplicationType.VRApplication_Background ≠ VRInitError_None then
        [Call.VR_Init EVRApplicationType.VRApplication_Background]
      else if rt.VRApplications 0 = false then
        [Call.VR_Init EVRApplicationType.VRApplication_Background, Call.VR_Shutdown]
      else if rt.IsApplicationInstalled "org.mon-ouie.mpris-openvr-overlay" = true then
        [Call.VR_Init EVRApplicationType.VRApplication_Background,
          Call.IsApplicationInstalled "org.mon-ouie.mpris-openvr-overlay",
          Call.LaunchDashboardOverlay "org.mon-ouie.mpris-openvr-overlay",
          Call.VR_Shutdown]
      else if rt.AddApplicationManifest (manifest_path cwd) ≠ VRApplicationError_None then
        [Call.VR_Init EVRApplicationType.VRApplication_Background,
          Call.IsApplicationInstalled "org.mon-ouie.mpris-openvr-overlay",
          Call.AddApplicationManifest (manifest_path cwd),
          Call.VR_Shutdown]
      else
        [Call.VR_Init EVRApplicationType.VRApplication_Background,
          Call.IsApplicationInstalled "org.mon-ouie.mpris-openvr-overlay",
          Call.AddApplicationManifest (manifest_path cwd),
          Call.LaunchDashboardOverlay "org.mon-ouie.mpris-openvr-overlay",
          Call.VR_Shutdown] := by
  rcases main_steady_cases rt os hs with ⟨h, e⟩ | ⟨h, h0, e⟩ | ⟨h, h0, hi, e⟩ |
    ⟨h, h0, hi, hc, e⟩ | ⟨c, hc, h, h0, hi, ha, e⟩ | ⟨c, hc, h, h0, hi, ha, e⟩ <;>
  (rw [e]
   simp_all [Run.operations, is_operation, List.filter_cons, APP_KEY])

/-- C5: the program is run twice against a runtime whose applications interface is either
available or not, the registry keeping between the runs what the first run registered.  If
the second run sees the identifier as installed, then it does not call
`AddApplicationManifest`, the two runs together call it at most once, and each of the two
runs calls `LaunchDashboardOverlay` once. -/
theorem second_run_skips_registration (rt : Runtime) (os os2 : Host) (hs : steady rt)
    (hcheck : Call.IsApplicationInstalled APP_KEY ∈
      (main (after_run rt (main rt os)) os2).calls)
    (hseen : (after_run rt (main rt os)).IsApplicationInstalled APP_KEY = true) :
    (main (after_run rt (main rt os)) os2).registrations = 0 ∧
    (main rt os).registrations + (main (after_run rt (main rt os)) os2).registrations ≤ 1 ∧
    (main rt os).launches = 1 ∧
    (main (after_run rt (main rt os)) os2).launches = 1 := by
  have hs2 : steady (after_run rt (main rt os)) := hs
  rcases main_steady_cases (after_run rt (main rt os)) os2 hs2 with
    ⟨_, e2⟩ | ⟨_, _, e2⟩ | ⟨g, g0, _, e2⟩ | ⟨_, _, gi, _, _⟩ | ⟨_, _, _, _, gi, _, _⟩ |
    ⟨_, _, _, _, gi, _, _⟩
  · rw [e2] at hcheck; simp at hcheck
  · rw [e2] at hcheck; simp at hcheck
  · have g : rt.VR_Init EVRApplicationType.VRApplication_Background = VRInitError_None := g
    have g0 : rt.VRApplications 0 = true := g0
    rw [e2]
    rcases main_steady_cases rt os hs with ⟨h, _⟩ | ⟨_, h0, _⟩ | ⟨_, _, _, e⟩ |
      ⟨_, _, hi, _, e⟩ | ⟨_, _, _, _, hi, ha, e⟩ | ⟨_, _, _, _, _, _, e⟩
    · exact absurd g h
    · rw [g0] at h0; exact absurd h0 (by decide)
    · rw [e]
      simp [Run.registrations, Run.launches, is_registration, is_launch, List.countP_cons]
    · rw [e] at hseen
      simp [after_run, hi] at hseen
    · rw [e] at hseen
      simp [after_run, hi, ha] at hseen
    · rw [e]
      simp [Run.registrations, Run.launches, is_registration, is_launch, List.countP_cons]
  · rw [hseen] at gi; exact absurd gi (by decide)
  · rw [hseen] at gi; exact absurd gi (by decide)
  · rw [hseen] at gi; exact absurd gi (by decide)

/-- C5, at a runtime where the first run registers the manifest. -/
theorem second_run_skips_registration_witness :
    steady (mock 0 true false 0 0) ∧
    (after_run (mock 0 true false 0 0)
      (main (mock 0 true false 0 0) home_user)).IsApplicationInstalled APP_KEY = true ∧
    (main (mock 0 true false 0 0) home_user).registrations = 1 ∧
    (main (after_run (mock 0 true false 0 0) (main (mock 0 true false 0 0) home_user))
      home_user).registrations = 0 ∧
    (main (after_run (mock 0 true false 0 0) (main (mock 0 true false 0 0) home_user))
      home_user).launches = 1 :=
  ⟨fun _ => rfl, by decide, by decide,
    (second_run_skips_registration (mock 0 true false 0 0) home_user home_user
      (fun _ => rfl) (by decide) (by decide)).1,
    (second_run_skips_registration (mock 0 true false 0 0) home_user home_user
      (fun _ => rfl) (by decide) (by decide)).2.2.2⟩

/-- Appending to an absolute path leaves it absolute. -/
theorem head_append_of_absolute (a b : String) (h : fs.is_absolute a = true) :
    (a ++ b).data.head? = some '/' := by
  unfold fs.is_absolute at h
  rw [String.data_append]
  cases hd : a.data with
  | nil => simp [hd] at h
  | cons c cs => simpa [hd] using h

/-- The resolved manifest path, spelled out: the working directory, a separator unless the
directory already ends with one, and the name of the manifest. -/
theorem manifest_path_eq (cwd : fs.Cwd) :
    (cwd.path.data.getLast? ≠ some '/' ∧
      manifest_path cwd = cwd.path ++ "/" ++ "manifest.vrmanifest") ∨
    (cwd.path.data.getLast? = some '/' ∧
      manifest_path cwd = cwd.path ++ "manifest.vrmanifest") := by
  have hrel : fs.is_absolute "manifest.vrmanifest" = false := by decide
  unfold manifest_path fs.path_append fs.has_filename
  rw [hrel]
  cases hl : cwd.path.data.getLast? with
  | none =>
    have habs := cwd.absolute
    unfold fs.is_absolute at habs
    rw [List.getLast?_eq_none_iff] at hl
    simp [hl] at habs
  | some c =>
    by_cases hc : c = '/'
    · right
      simp [hc]
    · left
      simp [hc]

/-- C6: whenever `AddApplicationManifest` is called, `current_path()` has given a working
directory, and the argument of the call is that directory, followed by a separator unless
the directory ends with one, followed by "manifest.vrmanifest"; it starts with a separator,
that is, it is an absolute path. -/
theorem manifest_argument_absolute (rt : Runtime) (os : Host) (path : String)
    (hcall : Call.AddApplicationManifest path ∈ (main rt os).calls) :
    ∃ cwd : fs.Cwd, os.current_path = some cwd ∧
      ((cwd.path.data.getLast? ≠ some '/' ∧
          path = cwd.path ++ "/" ++ "manifest.vrmanifest") ∨
        (cwd.path.data.getLast? = some '/' ∧
          path = cwd.path ++ "manifest.vrmanifest")) ∧
      path.data.head? = some '/' := by
  have hp : ∃ cwd : fs.Cwd, os.current_path = some cwd ∧ path = manifest_path cwd := by
    rcases main_cases rt os with ⟨_, e⟩ | ⟨_, _, e⟩ | ⟨_, _, _, _, _, e⟩ |
      ⟨_, _, _, _, _, e⟩ | ⟨c, hc, _, _, _, _, _, _, e⟩ |
      ⟨c, hc, _, _, _, _, _, _, _, e⟩ | ⟨_, _, _, e⟩ |
      ⟨c, hc, _, _, _, _, _, e⟩ | ⟨_, _, _, _, _, e⟩ | ⟨c, hc, _, _, _, _, _, _, _, e⟩ <;>
    (rw [e] at hcall; simp at hcall; try exact ⟨c, hc, hcall⟩)
  obtain ⟨cwd, hc, hp⟩ := hp
  refine ⟨cwd, hc, ?_, ?_⟩
  · rw [hp]
    exact manifest_path_eq cwd
  · rcases manifest_path_eq cwd with ⟨_, e⟩ | ⟨_, e⟩
    · rw [hp, e, String.append_assoc]
      exact head_append_of_absolute _ _ cwd.absolute
    · rw [hp, e]
      exact head_append_of_absolute _ _ cwd.absolute

/-- C6, at a run that registers the manifest from the directory /home/user. -/
theorem manifest_argument_absolute_witness :
    Call.AddApplicationManifest "/home/user/manifest.vrmanifest" ∈
      (main (mock 0 true false 0 0) home_user).calls ∧
    ∃ cwd : fs.Cwd, home_user.current_path = some cwd ∧
      ((cwd.path.data.getLast? ≠ some '/' ∧
          "/home/user/manifest.vrmanifest" = cwd.path ++ "/" ++ "manifest.vrmanifest") ∨
        (cwd.path.data.getLast? = some '/' ∧
          "/home/user/manifest.vrmanifest" = cwd.path ++ "manifest.vrmanifest")) ∧
      ("/home/user/manifest.vrmanifest" : String).data.head? = some '/' :=
  ⟨by decide,
    manifest_argument_absolute (mock 0 true false 0 0) home_user
      "/home/user/manifest.vrmanifest" (by decide)⟩

/-- C7 fails as stated: with the identifier installed and a launch that fails, the run
writes its status line to standard output and then an error line to standard error, two
lines in all. -/
theorem two_lines_on_launch_failure :
    steady (mock 0 true true 0 110) ∧
    (main (mock 0 true true 0 110) home_user).outcome = Outcome.returned 0 ∧
    (main (mock 0 true true 0 110) home_user).cout = ["Application already installed"] ∧
    (main (mock 0 true true 0 110) home_user).cerr = ["Failed launching overlay: 110"] ∧
    ¬ ((main (mock 0 true true 0 110) home_user).lines ≤ 1) :=
  ⟨fun _ => rfl, by decide, by decide, by decide, by decide⟩

/-- C7, amended: over a runtime whose applications interface is either available or not, a
run of `main` that returns writes at most one line to standard output and at most one line
to standard error; the two streams together receive at most one line, except when
`LaunchDashboardOverlay` is called and returns an error, and then they receive two. -/
theorem lines_at_most_one_unless_launch_fails (rt : Runtime) (os : Host) (code : Int)
    (hs : steady rt) (hret : (main rt os).outcome = Outcome.returned code) :
    (main rt os).cout.length ≤ 1 ∧
    (main rt os).cerr.length ≤ 1 ∧
    (¬ (Call.LaunchDashboardOverlay APP_KEY ∈ (main rt os).calls ∧
        rt.LaunchDashboardOverlay APP_KEY ≠ VRApplicationError_None) →
      (main rt os).lines ≤ 1) ∧
    (Call.LaunchDashboardOverlay APP_KEY ∈ (main rt os).calls ∧
        rt.LaunchDashboardOverlay APP_KEY ≠ VRApplicationError_None →
      (main rt os).lines = 2) := by
  rcases main_steady_cases rt os hs with ⟨h, e⟩ | ⟨h, h0, e⟩ | ⟨h, h0, hi, e⟩ |
    ⟨h, h0, hi, hc, e⟩ | ⟨c, hc, h, h0, hi, ha, e⟩ | ⟨c, hc, h, h0, hi, ha, e⟩
  · rw [e]; simp [Run.lines]
  · rw [e]; simp [Run.lines]
  · rw [e]
    by_cases hl : rt.LaunchDashboardOverlay APP_KEY = VRApplicationError_None <;>
    simp [Run.lines, hl]
  · rw [e] at hret; simp at hret
  · rw [e]; simp [Run.lines]
  · rw [e]
    by_cases hl : rt.LaunchDashboardOverlay APP_KEY = VRApplicationError_None <;>
    simp [Run.lines, hl]

/-- C7 amended, at a runtime where everything succeeds. -/
theorem lines_at_most_one_unless_launch_fails_witness :
    steady (mock 0 true false 0 0) ∧
    (main (mock 0 true false 0 0) home_user).outcome = Outcome.returned 0 ∧
    (main (mock 0 true false 0 0) home_user).lines ≤ 1 :=
  ⟨fun _ => rfl, by decide,
    (lines_at_most_one_unless_launch_fails (mock 0 true false 0 0) home_user 0
      (fun _ => rfl) (by decide)).2.2.1 (by decide)⟩

/-- C8: over a runtime whose applications interface is either available or not, a run of
`main` writes at most one line to standard output, and a run that ends with exit code 1 writes
exactly one line to standard error. -/
theorem one_status_line_one_error_line (rt : Runtime) (os : Host) (hs : steady rt) :
    (main rt os).cout.length ≤ 1 ∧
    ((main rt os).outcome = Outcome.returned 1 → (main rt os).cerr.length = 1) := by
  rcases main_steady_cases rt os hs with ⟨h, e⟩ | ⟨h, h0, e⟩ | ⟨h, h0, hi, e⟩ |
    ⟨h, h0, hi, hc, e⟩ | ⟨c, hc, h, h0, hi, ha, e⟩ | ⟨c, hc, h, h0, hi, ha, e⟩ <;>
  (rw [e]; simp)

/-- C8, at a runtime that fails to initialise. -/
theorem one_status_line_one_error_line_witness :
    steady (mock 108 true false 0 0) ∧
    (main (mock 108 true false 0 0) home_user).outcome = Outcome.returned 1 ∧
    (main (mock 108 true false 0 0) home_user).cerr.length = 1 :=
  ⟨fun _ => rfl, by decide,
    (one_status_line_one_error_line (mock 108 true false 0 0) home_user
      (fun _ => rfl)).2 (by decide)⟩

/-- C9 fails on the code: with the working directory removed and the identifier not
installed, the calls that act on the runtime are `VR_Init` and the installed check and
nothing more, a sixth sequence, which ends without `VR_Shutdown`. -/
theorem sixth_trace_on_uncaught_exception :
    steady (mock 0 true false 0 0) ∧
    (main (mock 0 true false 0 0) removed_cwd).operations =
      [Call.VR_Init EVRApplicationType.VRApplication_Background,
        Call.IsApplicationInstalled "org.mon-ouie.mpris-openvr-overlay"] :=
  ⟨fun _ => rfl, by decide⟩

/-- C10: a run starts with `VR_Init`, and every call through the applications handle comes
right after a fetch of the handle.  Only the first fetch is tested: a run stops on a call
through an absent handle exactly when the first fetch gives a handle and a later fetch that
the run reaches gives none.  When the accessor answers all its calls alike, no run stops
that way. -/
theorem no_call_through_absent_handle (rt : Runtime) (os : Host) :
    (main rt os).calls.head? =
      some (Call.VR_Init EVRApplicationType.VRApplication_Background) ∧
    List.Chain' (fun a b => is_registry_call b = true → a = Call.VRApplications)
      (main rt os).calls ∧
    ((main rt os).outcome = Outcome.undefined ↔
      rt.VR_Init EVRApplicationType.VRApplication_Background = VRInitError_None ∧
      rt.VRApplications 0 = true ∧
      (rt.VRApplications 1 = false ∨
        (rt.VRApplications 2 = false ∧
          (rt.IsApplicationInstalled APP_KEY = true ∨ os.current_path ≠ none)) ∨
        (rt.IsApplicationInstalled APP_KEY = false ∧
          ∃ cwd : fs.Cwd, os.current_path = some cwd ∧
            rt.AddApplicationManifest (manifest_path cwd) = VRApplicationError_None ∧
            rt.VRApplications 3 = false))) ∧
    (steady rt → (main rt os).outcome ≠ Outcome.undefined) := by
  refine ⟨?_, ?_, ?_, ?_⟩
  · rcases main_cases rt os with ⟨_, e⟩ | ⟨_, _, e⟩ | ⟨_, _, _, _, _, e⟩ |
      ⟨_, _, _, _, _, e⟩ | ⟨_, _, _, _, _, _, _, _, e⟩ |
      ⟨_, _, _, _, _, _, _, _, _, e⟩ | ⟨_, _, _, e⟩ |
      ⟨_, _, _, _, _, _, _, e⟩ | ⟨_, _, _, _, _, e⟩ | ⟨_, _, _, _, _, _, _, _, _, e⟩ <;>
    (rw [e]; rfl)
  · rcases main_cases rt os with ⟨_, e⟩ | ⟨_, _, e⟩ | ⟨_, _, _, _, _, e⟩ |
      ⟨_, _, _, _, _, e⟩ | ⟨_, _, _, _, _, _, _, _, e⟩ |
      ⟨_, _, _, _, _, _, _, _, _, e⟩ | ⟨_, _, _, e⟩ |
      ⟨_, _, _, _, _, _, _, e⟩ | ⟨_, _, _, _, _, e⟩ | ⟨_, _, _, _, _, _, _, _, _, e⟩ <;>
    (rw [e]; simp [List.Chain', is_registry_call])
  · rcases main_cases rt os with ⟨h, e⟩ | ⟨h, h0, e⟩ | ⟨h, h0, h1, h2, hi, e⟩ |
      ⟨h, h0, h1, hi, hc, e⟩ | ⟨c, hc, h, h0, h1, h2, hi, ha, e⟩ |
      ⟨c, hc, h, h0, h1, h2, h3, hi, ha, e⟩ | ⟨h, h0, h1, e⟩ |
      ⟨c, hc, h, h0, h1, h2, hi, e⟩ | ⟨h, h0, h1, h2, hi, e⟩ |
      ⟨c, hc, h, h0, h1, h2, h3, hi, ha, e⟩ <;>
    (rw [e]; simp_all)
  · intro hs
    rcases main_steady_cases rt os hs with ⟨_, e⟩ | ⟨_, _, e⟩ | ⟨_, _, _, e⟩ |
      ⟨_, _, _, _, e⟩ | ⟨_, _, _, _, _, _, e⟩ | ⟨_, _, _, _, _, _, e⟩ <;>
    (rw [e]; simp)

/-- C10, at a runtime whose applications interface is there at every fetch. -/
theorem no_call_through_absent_handle_witness :
    steady (mock 0 true false 0 0) ∧
    (main (mock 0 true false 0 0) home_user).outcome ≠ Outcome.undefined :=
  ⟨fun _ => rfl,
    (no_call_through_absent_handle (mock 0 true false 0 0) home_user).2.2.2
      (fun _ => rfl)⟩

end install
